import Mathlib

/-!
Verification development for the m3u8 stream downloader (src/main.py).

The development shallowly embeds the class M3U8DownloadManager: pure string
and path manipulation is translated to Lean functions on String and
List Char, stateful filesystem code is explicit state passing over an
association list from path to content, the HTTP layer and the external
ffmpeg process are parameters (functions supplied by an environment), and
the thread-pool completion order of as_completed is an explicit list of
job indices. Exceptions are modelled with Except and an error type whose
constructors correspond to the raise sites of the source.
-/

set_option maxRecDepth 4000

namespace M3U8

/-! ## Character-list helpers for paths and URLs -/

/-- Splits a character list at every slash, as the Python expression
s.split with a slash separator: the empty string splits to one empty
component, and adjacent slashes produce empty components. -/
def splitSlash : List Char → List (List Char)
  | [] => [[]]
  | c :: rest =>
    if c = '/' then [] :: splitSlash rest
    else
      match splitSlash rest with
      | h :: t => (c :: h) :: t
      | [] => [[c]]

/-- Joins components with a slash, as the Python slash join of a list. -/
def joinSlash : List (List Char) → List Char
  | [] => []
  | [s] => s
  | s :: rest => s ++ '/' :: joinSlash rest

/-- Embeds posixpath.dirname: the prefix up to the last slash, with
trailing slashes stripped unless the prefix is empty or all slashes. -/
def dirnameChars (p : List Char) : List Char :=
  let head := (p.reverse.dropWhile (fun c => c != '/')).reverse
  if head.isEmpty || head.all (fun c => c == '/') then head
  else (head.reverse.dropWhile (fun c => c == '/')).reverse

/-- Embeds os.path.dirname on strings, as used at lines 101, 118 and 126
of src/main.py to turn a manifest URL into a base URL. -/
def dirname (p : String) : String := String.mk (dirnameChars p.data)

/-- Embeds os.path.basename: the suffix after the last slash. Used at
line 152 of src/main.py to name a segment file from its URI. -/
def basename (p : String) : String :=
  String.mk ((p.data.reverse.takeWhile (fun c => c != '/')).reverse)

/-- Embeds the two-argument posix os.path.join used at lines 110-112 and
152 of src/main.py. -/
def pathJoin (a b : String) : String :=
  if "/".data.isPrefixOf b.data then b
  else if a.data.isEmpty || "/".data.isSuffixOf a.data then String.mk (a.data ++ b.data)
  else String.mk (a.data ++ '/' :: b.data)

/-- Drops the final path component of a split base path unless it is
empty, as the urljoin step that deletes the last base part when it is
not a directory. -/
def dropLastSeg (parts : List (List Char)) : List (List Char) :=
  match parts.getLast? with
  | some last => if last.isEmpty then parts else parts.dropLast
  | none => parts

/-- Removes empty interior components of a merged segment list, as the
urljoin filter over segments strictly between the first and the last. -/
def filterInterior (segs : List (List Char)) : List (List Char) :=
  match segs with
  | [] => []
  | first :: rest =>
    match rest.getLast? with
    | none => [first]
    | some last => first :: ((rest.dropLast.filter (fun s => !s.isEmpty)) ++ [last])

/-- Resolves single-dot and double-dot segments, as the resolution loop
of urljoin: a double dot pops the accumulator (silently on empty), a
single dot is skipped, and a trailing dot segment appends an empty
component. -/
def resolveDotSegs (segs : List (List Char)) : List (List Char) :=
  let resolved := segs.foldl
    (fun acc seg =>
      if seg = ['.'] then acc
      else if seg = ['.', '.'] then acc.dropLast
      else acc ++ [seg]) []
  match segs.getLast? with
  | some last => if last = ['.'] || last = ['.', '.'] then resolved ++ [[]] else resolved
  | none => resolved

/-- Splits an absolute URL of the form scheme://rest into the scheme and
the part after the double slash; none when no scheme marker occurs. -/
def splitSchemeRest : List Char → Option (List Char × List Char)
  | [] => none
  | c :: rest =>
    if c == ':' && "//".data.isPrefixOf rest then some ([], rest.drop 2)
    else
      match splitSchemeRest rest with
      | some (sch, r) => some (c :: sch, r)
      | none => none

/-- Embeds urllib.parse.urljoin restricted to the URL shapes this program
produces: the base is an absolute URL of the form scheme://netloc with an
optional path, and the reference is either such an absolute URL, a
network-path reference starting with a double slash, or a plain
(possibly rooted) path without query or fragment. On these shapes it
follows the CPython algorithm: split the base path, drop its last
component when nonempty, merge (for a rooted reference ignore the base
path), filter empty interior components of a merged relative reference,
resolve dot segments, and rebuild scheme://netloc plus the joined path
(or a single slash when the joined path is empty). -/
def urljoinChars (base url : List Char) : List Char :=
  if base.isEmpty then url
  else if url.isEmpty then base
  else
    match splitSchemeRest base with
    | none => url
    | some (bscheme, rest) =>
      let bnetloc := rest.takeWhile (fun c => c != '/')
      let bpath := rest.dropWhile (fun c => c != '/')
      if (splitSchemeRest url).isSome then url
      else if "//".data.isPrefixOf url then bscheme ++ ':' :: url
      else
        let segments :=
          if "/".data.isPrefixOf url then splitSlash url
          else filterInterior (dropLastSeg (splitSlash bpath) ++ splitSlash url)
        let path := joinSlash (resolveDotSegs segments)
        bscheme ++ "://".data ++ bnetloc ++ (if path.isEmpty then "/".data else path)

/-- Embeds urllib.parse.urljoin on strings, as used at lines 102, 103 and
151 of src/main.py. -/
def urljoin (base url : String) : String := String.mk (urljoinChars base.data url.data)

/-! ## Data model: the parsed playlist objects of the m3u8 library -/

/-- One entry of playlist.playlists: the stream_info resolution pair and
the variant URI. -/
structure VariantPlaylist where
  width : Nat
  height : Nat
  uri : String
deriving DecidableEq

/-- One entry of playlist.media: its type, name and URI. -/
structure Media where
  type : String
  name : String
  uri : String
deriving DecidableEq

/-- One entry of playlist.segments: its URI. -/
structure Segment where
  uri : String
deriving DecidableEq

/-- A parsed m3u8 playlist object: variant playlists, media entries and
segments. A master playlist uses the first two lists, a media playlist
uses the segment list. -/
structure Playlist where
  playlists : List VariantPlaylist
  media : List Media
  segments : List Segment
deriving DecidableEq

/-- The resolution label rendered at lines 48 and 83 of src/main.py from
the stream_info resolution pair. -/
def resolutionLabel (pl : VariantPlaylist) : String :=
  toString pl.width ++ "x" ++ toString pl.height

/-- Embeds _parse_playlist (lines 25-37): the HTTP fetch, the status
check and the m3u8 parse are an external pipeline whose outcome is the
argument; any exception is caught, a message is printed and None is
returned, so the result carries no error value. -/
def parse_playlist (fetched : Except String Playlist) : Option Playlist :=
  match fetched with
  | .ok p => some p
  | .error _ => none

/-- Embeds get_available_streams (lines 39-49): empty when the manager
holds no playlist or the playlist has no variant entries, otherwise the
resolution labels in manifest order. -/
def get_available_streams (playlist : Option Playlist) : List String :=
  match playlist with
  | none => []
  | some p => if p.playlists.isEmpty then [] else p.playlists.map resolutionLabel

/-- Embeds get_available_audio_tracks (lines 51-60): empty when the
manager holds no playlist or the playlist has no media entries, otherwise
the names of the media entries whose type is AUDIO, in manifest order. -/
def get_available_audio_tracks (playlist : Option Playlist) : List String :=
  match playlist with
  | none => []
  | some p =>
    if p.media.isEmpty then []
    else (p.media.filter (fun m => m.type == "AUDIO")).map (fun m => m.name)

/-- Python truthiness of an optional string: None and the empty string
are falsy, as tested by the defaulting conditionals at lines 72 and 77
of src/main.py. -/
def pyFalsy : Option String → Bool
  | none => true
  | some s => s == ""

/-- Python str interpolation of an optional string: None prints as the
word None, as in the f-strings of src/main.py. -/
def pyStr : Option String → String
  | none => "None"
  | some s => s

/-- The defaulting conditionals at lines 70-78 of src/main.py: when the
requested value is falsy and the available list is nonempty, take the
first available entry, otherwise keep the requested value. -/
def defaultFrom (requested : Option String) (available : List String) : Option String :=
  if pyFalsy requested then
    match available with
    | s :: _ => some s
    | [] => requested
  else requested

/-! ## Errors, effects, filesystem state and environment -/

deriving instance DecidableEq for Except

/-- The errors download_stream can raise, one constructor per site:
attributeError is the Python AttributeError raised at line 81 when the
manager holds no playlist, noStreamFound and noAudioTrackFound are the
ValueError raises at lines 88 and 98 (the failures the specification
names SelectionError with ResolutionNotFound and TrackNotFound), and
ffmpegError is an ffmpeg.Error propagating out of _combine_streams. -/
inductive Err where
  | attributeError
  | noStreamFound (resolution : Option String)
  | noAudioTrackFound (language : Option String)
  | ffmpegError (msg : String)
deriving DecidableEq

/-- The three invocations of the external ffmpeg process in
_combine_streams (lines 181-208). -/
inductive MuxStep where
  | concatVideo
  | concatAudio
  | merge
deriving DecidableEq

/-- Observable side effects of a download run: an HTTP GET of a
sub-manifest (m3u8.load), an HTTP GET of a segment (requests.get), a
file write, a file removal, and an ffmpeg invocation. -/
inductive Effect where
  | playlistGET (url : String)
  | segmentGET (url : String)
  | fileWrite (path : String)
  | removeFile (path : String)
  | ffmpegRun (step : MuxStep)
deriving DecidableEq

/-- The local filesystem as a map from path to content, represented as a
duplicate-free association list. -/
abbrev FS := List (String × String)

/-- Embeds os.path.exists on the modelled filesystem. -/
def fsExists (fs : FS) (p : String) : Bool := fs.any (fun e => e.1 == p)

/-- Writing a file: replaces any entry at the same path. -/
def fsWrite (fs : FS) (p content : String) : FS :=
  (p, content) :: fs.filter (fun e => e.1 != p)

/-- Embeds os.remove. -/
def fsRemove (fs : FS) (p : String) : FS := fs.filter (fun e => e.1 != p)

/-- Reads the content of a file, none when absent. -/
def fsRead (fs : FS) (p : String) : Option String :=
  (fs.find? (fun e => e.1 == p)).map (fun e => e.2)

/-- The HTTP response of requests.get: status code and body. The call at
line 168 of src/main.py passes no timeout argument and never consults
the status code. -/
structure HttpResponse where
  status : Nat
  body : String
deriving DecidableEq

/-- The external collaborators of a download run: the HTTP layer for
segment GETs, the m3u8.load of sub-manifests, the outcome of each ffmpeg
invocation, and the order in which as_completed yields the finished
futures of each of the two thread pools (a list of indices into the
futures list, one occurrence per future). -/
structure Env where
  http : String → HttpResponse
  loadPlaylist : String → Playlist
  ffmpeg : MuxStep → Except String Unit
  videoCompletion : List Nat
  audioCompletion : List Nat

/-! ## Segment downloading (lines 139-171 of src/main.py) -/

/-- Embeds _download_segment (lines 159-171): when the target path
already exists the network is not touched and the path is returned
unchanged; otherwise requests.get is issued (without timeout) and the
response body is written to the path regardless of the status code.
Returns the filesystem after the call, the effects performed, and the
returned path. -/
def download_segment (http : String → HttpResponse) (fs : FS) (url output_path : String) :
    FS × List Effect × String :=
  if fsExists fs output_path then (fs, [], output_path)
  else
    let response := http url
    (fsWrite fs output_path response.body,
     [Effect.segmentGET url, Effect.fileWrite output_path], output_path)

/-- The deterministic target path of a segment, as built at line 152 of
src/main.py: the session output directory joined with the basename of
the segment URI. -/
def segmentOutputPath (output_dir : String) (seg : Segment) : String :=
  pathJoin output_dir (basename seg.uri)

/-- One submitted future of the pool: the resolved segment URL and the
target path. -/
structure SegJob where
  url : String
  output_path : String
deriving DecidableEq

/-- The futures submitted at lines 150-153 of src/main.py, in manifest
order: each segment URI is resolved against the base URL with urljoin
and its target path is the output directory joined with its basename. -/
def segJobs (base_url output_dir : String) (segs : List Segment) : List SegJob :=
  segs.map (fun s => { url := urljoin base_url s.uri, output_path := segmentOutputPath output_dir s })

/-- The as_completed loop at lines 155-157 of src/main.py: futures are
consumed in completion order, each yielding its segment path, and one
concat-list line per future is written in that order. The filesystem is
threaded through the jobs in completion order, which serialises the
concurrent writes; an index outside the futures list yields nothing. -/
def runCompleted (http : String → HttpResponse) (jobs : List SegJob) (completion : List Nat)
    (fs : FS) : FS × List Effect × List String :=
  completion.foldl
    (fun acc i =>
      match jobs[i]? with
      | none => acc
      | some job =>
        let r := download_segment http acc.1 job.url job.output_path
        (r.1, acc.2.1 ++ r.2.1, acc.2.2 ++ ["file \x27" ++ r.2.2 ++ "\x27"]))
    (fs, [], [])

/-- The final content of the concat-list file: the lines in the order
they were written, each terminated by a newline. -/
def concatContent (lines : List String) : String :=
  String.join (lines.map (fun l => l ++ "\n"))

/-- Embeds _download_segments (lines 139-157): builds the futures in
manifest order, consumes them in completion order writing one concat
line per completed future, and leaves the concat-list file holding those
lines. Returns the filesystem after the run and the effects performed. -/
def download_segments (http : String → HttpResponse) (playlist : Playlist)
    (segments_file base_url output_dir : String) (completion : List Nat) (fs : FS) :
    FS × List Effect :=
  let jobs := segJobs base_url output_dir playlist.segments
  let r := runCompleted http jobs completion fs
  (fsWrite r.1 segments_file (concatContent r.2.2), r.2.1 ++ [Effect.fileWrite segments_file])

/-! ## Muxing (lines 173-213 of src/main.py) -/

/-- The fixed intermediate video container path written by the first
ffmpeg step, a literal at lines 186, 203 and 211 of src/main.py,
independent of the session and resolved in the process working
directory. -/
def intermediate_video : String := "intermediate_video.mp4"

/-- The fixed intermediate audio container path written by the second
ffmpeg step, a literal at lines 195, 204 and 211 of src/main.py. -/
def intermediate_audio : String := "intermediate_audio.m4a"

/-- The try block of _combine_streams: the three ffmpeg invocations in
order, stopping at the first failure; a successful step writes its
output file. Returns the filesystem, the effects, and the outcome. -/
def muxSteps (run : MuxStep → Except String Unit) (fs : FS) (output_file : String) :
    FS × List Effect × Except Err Unit :=
  match run .concatVideo with
  | .error e => (fs, [Effect.ffmpegRun .concatVideo], .error (.ffmpegError e))
  | .ok _ =>
    let fsv := fsWrite fs intermediate_video "VIDEOCONCAT"
    match run .concatAudio with
    | .error e =>
      (fsv, [Effect.ffmpegRun .concatVideo, Effect.fileWrite intermediate_video,
             Effect.ffmpegRun .concatAudio], .error (.ffmpegError e))
    | .ok _ =>
      let fsa := fsWrite fsv intermediate_audio "AUDIOCONCAT"
      match run .merge with
      | .error e =>
        (fsa, [Effect.ffmpegRun .concatVideo, Effect.fileWrite intermediate_video,
               Effect.ffmpegRun .concatAudio, Effect.fileWrite intermediate_audio,
               Effect.ffmpegRun .merge], .error (.ffmpegError e))
      | .ok _ =>
        (fsWrite fsa output_file "MERGED",
         [Effect.ffmpegRun .concatVideo, Effect.fileWrite intermediate_video,
          Effect.ffmpegRun .concatAudio, Effect.fileWrite intermediate_audio,
          Effect.ffmpegRun .merge, Effect.fileWrite output_file], .ok ())

/-- One arm of the cleanup loop at lines 211-213 of src/main.py: remove
the file when it exists. -/
def removeIfExists (fs : FS) (p : String) : FS × List Effect :=
  if fsExists fs p then (fsRemove fs p, [Effect.removeFile p]) else (fs, [])

/-- The finally block of _combine_streams (lines 209-213): both fixed
intermediate paths are removed when present. -/
def cleanupIntermediates (fs : FS) : FS × List Effect :=
  let r1 := removeIfExists fs intermediate_video
  let r2 := removeIfExists r1.1 intermediate_audio
  (r2.1, r1.2 ++ r2.2)

/-- Embeds _combine_streams (lines 173-213): the three ffmpeg steps in a
try block, then the unconditional finally cleanup of the two fixed
intermediate paths. The segment-list file paths are inputs of the
external invocations abstracted by run. -/
def combine_streams (run : MuxStep → Except String Unit) (fs : FS)
    (video_segments audio_segments output_file : String) :
    FS × List Effect × Except Err Unit :=
  let r := muxSteps run fs output_file
  let c := cleanupIntermediates r.1
  (c.1, r.2.1 ++ c.2, r.2.2)

/-! ## Selection and orchestration (lines 62-137 of src/main.py) -/

/-- Lines 70-98 of download_stream: default a falsy resolution and
language from the available lists, then find the first variant playlist
whose rendered resolution label equals the resolution and the first
AUDIO media entry whose name equals the language, raising the
corresponding ValueError when either is absent. Returns the selected
pair together with the defaulted resolution and language. -/
def selectStreams (p : Playlist) (resolution language : Option String) :
    Except Err (VariantPlaylist × Media × Option String × Option String) :=
  let resolution := defaultFrom resolution (get_available_streams (some p))
  let language := defaultFrom language (get_available_audio_tracks (some p))
  match p.playlists.find? (fun pl => resolution == some (resolutionLabel pl)) with
  | none => .error (.noStreamFound resolution)
  | some spl =>
    match p.media.find? (fun m => m.type == "AUDIO" && language == some m.name) with
    | none => .error (.noAudioTrackFound language)
    | some track => .ok (spl, track, resolution, language)

/-- Embeds download_stream (lines 62-137). The manager state is the
parsed playlist (None when _parse_playlist failed) and the session
output directory; accessing the playlists attribute of None at line 81
raises AttributeError. After selection, the top-level base URL is the
dirname of the playlist URL, the two sub-manifest URLs are resolved
against it with urljoin and loaded, both segment runs execute with the
dirnames of the respective sub-manifest URLs as bases, and the ffmpeg
combination runs last. Returns the outcome (the output path on
success), the final filesystem and the effect trace. -/
def download_stream (env : Env) (fs : FS) (playlist : Option Playlist)
    (playlist_url output_dir : String) (resolution language : Option String) :
    Except Err String × FS × List Effect :=
  match playlist with
  | none => (.error .attributeError, fs, [])
  | some p =>
    match selectStreams p resolution language with
    | .error e => (.error e, fs, [])
    | .ok (spl, track, res, lang) =>
      let base_url := dirname playlist_url
      let video_playlist_url := urljoin base_url spl.uri
      let audio_playlist_url := urljoin base_url track.uri
      let video_playlist := env.loadPlaylist video_playlist_url
      let audio_playlist := env.loadPlaylist audio_playlist_url
      let video_segments_file := pathJoin output_dir "video_segments.txt"
      let audio_segments_file := pathJoin output_dir "audio_segments.txt"
      let output_file := pathJoin output_dir ("output_" ++ pyStr res ++ "_" ++ pyStr lang ++ ".mp4")
      let rv := download_segments env.http video_playlist video_segments_file
          (dirname video_playlist_url) output_dir env.videoCompletion fs
      let ra := download_segments env.http audio_playlist audio_segments_file
          (dirname audio_playlist_url) output_dir env.audioCompletion rv.1
      let rc := combine_streams env.ffmpeg ra.1 video_segments_file audio_segments_file output_file
      let trace := [Effect.playlistGET video_playlist_url, Effect.playlistGET audio_playlist_url]
          ++ rv.2 ++ ra.2 ++ rc.2.1
      match rc.2.2 with
      | .error e => (.error e, rc.1, trace)
      | .ok _ => (.ok output_file, rc.1, trace)

/-! ## Concrete fixtures used by the closed theorems and witnesses -/

/-- An HTTP layer that always answers 200 with a fixed body. -/
def httpOk : String → HttpResponse := fun _ => { status := 200, body := "SEGDATA" }

/-- An HTTP layer that always answers 404 with an error page body. -/
def http404 : String → HttpResponse := fun _ => { status := 404, body := "Not Found" }

/-- A concrete environment: the HTTP layer answers 200, every loaded
sub-manifest is empty, every ffmpeg invocation succeeds, and both pools
have no futures. -/
def envW : Env :=
  { http := httpOk
    loadPlaylist := fun _ => { playlists := [], media := [], segments := [] }
    ffmpeg := fun _ => .ok ()
    videoCompletion := []
    audioCompletion := [] }

/-- A catalog with one variant and one audio track, each with a relative
URI under the directory of the master manifest. -/
def catalogOne : Playlist :=
  { playlists := [{ width := 640, height := 360, uri := "video.m3u8" }]
    media := [{ type := "AUDIO", name := "English", uri := "audio.m3u8" }]
    segments := [] }

/-- A catalog with no variants and no media at all. -/
def catalogEmpty : Playlist :=
  { playlists := [], media := [], segments := [] }

/-- The catalog of the end-to-end scenario of the specification: two
variants and, after a non-audio media entry, two audio tracks. -/
def catalogTwo : Playlist :=
  { playlists := [{ width := 640, height := 360, uri := "v0.m3u8" },
                  { width := 1280, height := 720, uri := "v1.m3u8" }]
    media := [{ type := "SUBTITLES", name := "Subs", uri := "st.m3u8" },
              { type := "AUDIO", name := "English", uri := "a0.m3u8" },
              { type := "AUDIO", name := "Hindi", uri := "a1.m3u8" }]
    segments := [] }

/-- A media playlist with three segments in manifest order. -/
def mediaThree : Playlist :=
  { playlists := [], media := [],
    segments := [{ uri := "seg0.ts" }, { uri := "seg1.ts" }, { uri := "seg2.ts" }] }

/-- A catalog with one variant and no audio media entries. -/
def catalogNoAudio : Playlist :=
  { playlists := [{ width := 640, height := 360, uri := "v.m3u8" }]
    media := []
    segments := [] }

/-! ## Helper lemmas -/

/-- A non-falsy requested value is kept by the defaulting conditional. -/
lemma defaultFrom_keep (r : Option String) (av : List String) (h : pyFalsy r = false) :
    defaultFrom r av = r := by
  simp [defaultFrom, h]

/-- Rendering of the available stream labels when the variant list is a
cons. -/
lemma streams_cons (p : Playlist) (c : VariantPlaylist) (rest : List VariantPlaylist)
    (hp : p.playlists = c :: rest) :
    get_available_streams (some p) = resolutionLabel c :: rest.map resolutionLabel := by
  simp [get_available_streams, hp]

/-- The available audio names are empty when no media entry has type
AUDIO. -/
lemma audio_tracks_nil (p : Playlist) (h : p.media.filter (fun m => m.type == "AUDIO") = []) :
    get_available_audio_tracks (some p) = [] := by
  simp [get_available_audio_tracks, h]

/-- The available audio names when the filtered AUDIO entries are a
cons. -/
lemma audio_tracks_cons (p : Playlist) (a : Media) (t : List Media)
    (h : p.media.filter (fun m => m.type == "AUDIO") = a :: t) :
    get_available_audio_tracks (some p) = a.name :: t.map (fun m => m.name) := by
  have hne : p.media.isEmpty = false := by
    cases hmd : p.media with
    | nil => rw [hmd] at h; simp at h
    | cons m rest => rfl
  simp [get_available_audio_tracks, hne, h]

/-- The first variant matches its own rendered label. -/
lemma find_first_variant (c : VariantPlaylist) (rest : List VariantPlaylist) :
    (c :: rest).find? (fun pl => some (resolutionLabel c) == some (resolutionLabel pl)) = some c := by
  rw [List.find?_cons_of_pos _ (by simp)]

/-- The first media entry of the filtered AUDIO list is the first entry
found when searching for its own name among AUDIO entries. -/
lemma find_first_audio (l : List Media) (a : Media) (t : List Media)
    (h : l.filter (fun m => m.type == "AUDIO") = a :: t) :
    l.find? (fun m => m.type == "AUDIO" && some a.name == some m.name) = some a := by
  induction l with
  | nil => simp at h
  | cons m rest ih =>
    cases hm : (m.type == "AUDIO") with
    | false =>
      rw [List.filter_cons_of_neg (by simp [hm])] at h
      rw [List.find?_cons_of_neg _ (by simp [hm])]
      exact ih h
    | true =>
      rw [List.filter_cons_of_pos (by simp [hm])] at h
      injection h with h1 h2
      subst h1
      rw [List.find?_cons_of_pos _ (by simp [hm])]

/-- Searching for a None language among AUDIO entries never matches. -/
lemma find_audio_none_lang (l : List Media) :
    l.find? (fun m => m.type == "AUDIO" && (none : Option String) == some m.name) = none := by
  induction l with
  | nil => rfl
  | cons m rest ih =>
    rw [List.find?_cons_of_neg _ (by simp)]
    exact ih

/-- selectStreams raises the no-stream ValueError when the requested
resolution is non-falsy and matches no variant label. -/
lemma selectStreams_noStream (p : Playlist) (r l : Option String)
    (h1 : pyFalsy r = false)
    (h2 : p.playlists.find? (fun pl => r == some (resolutionLabel pl)) = none) :
    selectStreams p r l = .error (.noStreamFound r) := by
  simp [selectStreams, defaultFrom_keep r _ h1, h2]

/-- selectStreams raises the no-audio-track ValueError when a variant is
selected but the non-falsy requested language matches no AUDIO entry. -/
lemma selectStreams_noAudio (p : Playlist) (r l : Option String) (spl : VariantPlaylist)
    (h1 : pyFalsy l = false)
    (h2 : p.playlists.find? (fun pl =>
        defaultFrom r (get_available_streams (some p)) == some (resolutionLabel pl)) = some spl)
    (h3 : p.media.find? (fun m => m.type == "AUDIO" && l == some m.name) = none) :
    selectStreams p r l = .error (.noAudioTrackFound l) := by
  simp only [selectStreams, h2]
  simp [defaultFrom_keep l _ h1, h3]

/-- A selection error aborts download_stream before any side effect. -/
lemma download_stream_error (env : Env) (fs : FS) (p : Playlist) (url dir : String)
    (r l : Option String) (e : Err) (h : selectStreams p r l = .error e) :
    download_stream env fs (some p) url dir r l = (.error e, fs, []) := by
  simp [download_stream, h]

/-- Filtering out a key makes it absent. -/
lemma fsExists_filter_ne (fs : FS) (p : String) :
    fsExists (List.filter (fun e => e.1 != p) fs) p = false := by
  induction fs with
  | nil => rfl
  | cons e t ih =>
    cases h : (e.1 == p) with
    | true =>
      have hb : (e.1 != p) = false := by simp [bne, h]
      simp only [List.filter_cons, hb]
      exact ih
    | false =>
      have hb : (e.1 != p) = true := by simp [bne, h]
      simp only [List.filter_cons, hb, if_true]
      simp only [fsExists, List.any_cons, h, Bool.false_or]
      exact ih

/-- Filtering never introduces a key. -/
lemma fsExists_filter_mono (fs : FS) (q : String × String → Bool) (p : String)
    (h : fsExists fs p = false) : fsExists (List.filter q fs) p = false := by
  induction fs with
  | nil => rfl
  | cons e t ih =>
    simp only [fsExists, List.any_cons] at h
    have he : (e.1 == p) = false := by
      cases hh : (e.1 == p) with
      | false => rfl
      | true => rw [hh] at h; simp at h
    have ht : t.any (fun x => x.1 == p) = false := by
      rw [he] at h; simpa using h
    cases hq : q e with
    | true =>
      simp only [List.filter_cons, hq, if_true, fsExists, List.any_cons, he, Bool.false_or]
      exact ih ht
    | false =>
      simp only [List.filter_cons, hq]
      exact ih ht

/-- After the conditional removal, the removed path is absent. -/
lemma removeIfExists_self (fs : FS) (p : String) :
    fsExists (removeIfExists fs p).1 p = false := by
  unfold removeIfExists
  cases h : fsExists fs p with
  | true => simp [h, fsRemove, fsExists_filter_ne]
  | false => simp [h]

/-- The conditional removal never introduces a path. -/
lemma removeIfExists_mono (fs : FS) (p q : String) (h : fsExists fs p = false) :
    fsExists (removeIfExists fs q).1 p = false := by
  unfold removeIfExists
  cases hq : fsExists fs q with
  | true => simp only [hq, if_true, fsRemove]; exact fsExists_filter_mono fs _ p h
  | false => simpa [hq] using h

/-- After the finally block of _combine_streams, neither fixed
intermediate path exists, whatever the filesystem held before. -/
lemma cleanup_clears (fs : FS) :
    fsExists (cleanupIntermediates fs).1 intermediate_video = false
    ∧ fsExists (cleanupIntermediates fs).1 intermediate_audio = false :=
  ⟨removeIfExists_mono _ _ _ (removeIfExists_self fs intermediate_video),
   removeIfExists_self _ _⟩

/-! ## Claim theorems -/

/-- Claim C1, evidence of the code bug: the concat-list file produced by
_download_segments holds its lines in the completion order of the
futures, not in manifest order. For the three-segment playlist with
completion order 2, 0, 1 the file content lists seg2 first, which
differs from the manifest-order content built from the jobs list. -/
theorem concat_list_written_in_completion_order :
    fsRead (download_segments httpOk mediaThree "downloads/s1/video_segments.txt"
        "http://host/v" "downloads/s1" [2, 0, 1] []).1 "downloads/s1/video_segments.txt"
      = some ("file \x27downloads/s1/seg2.ts\x27\nfile \x27downloads/s1/seg0.ts\x27\n"
          ++ "file \x27downloads/s1/seg1.ts\x27\n")
    ∧ ("file \x27downloads/s1/seg2.ts\x27\nfile \x27downloads/s1/seg0.ts\x27\n"
          ++ "file \x27downloads/s1/seg1.ts\x27\n")
      ≠ concatContent ((segJobs "http://host/v" "downloads/s1" mediaThree.segments).map
          (fun j => "file \x27" ++ j.output_path ++ "\x27")) := by
  constructor
  · decide
  · decide

/-- Claim C2, evidence of the code bug: on a non-2xx response the
segment job of _download_segment completes successfully, writes the
error body to the segment file, and returns the path; no timeout is
passed to the GET and no error carrying the sequence index and URL is
raised. -/
theorem non_2xx_fetch_writes_error_body :
    download_segment http404 [] "http://host/v/seg0.ts" "downloads/s1/seg0.ts"
      = ([("downloads/s1/seg0.ts", "Not Found")],
         [Effect.segmentGET "http://host/v/seg0.ts", Effect.fileWrite "downloads/s1/seg0.ts"],
         "downloads/s1/seg0.ts") := by
  decide

/-- Claim C3, counterexample: a transport or parse failure of the
top-level manifest is caught by _parse_playlist and replaced by None,
so no ManifestError value propagates to the caller; the later listing
operations then run against the absent catalog and return empty lists
instead of failing. -/
theorem manifest_failure_swallowed_to_none :
    parse_playlist (.error "connection refused") = none
    ∧ get_available_streams none = []
    ∧ get_available_audio_tracks none = [] :=
  ⟨rfl, rfl, rfl⟩

/-- Claim C3, amended: on transport or parse failure the exception is
swallowed and the catalog is None; listing operations observe the
absent catalog as empty lists, and download_stream on the absent
catalog fails with the AttributeError of accessing playlists on None,
before any side effect. -/
theorem manifest_failure_yields_absent_catalog (e : String) (env : Env) (fs : FS)
    (url dir : String) (r l : Option String) :
    parse_playlist (.error e) = none
    ∧ download_stream env fs none url dir r l = (.error .attributeError, fs, [])
    ∧ get_available_streams none = []
    ∧ get_available_audio_tracks none = [] :=
  ⟨rfl, rfl, rfl, rfl⟩

/-- Claim C4, evidence of the code bug: the sub-manifest URL actually
fetched by download_stream is urljoin applied to the dirname of the
manifest URL, which drops the directory component, while standard
relative resolution against the manifest location itself keeps it. For
a master manifest under the streams directory, the program fetches the
variant playlist from the host root instead of the streams directory. -/
theorem segment_url_base_drops_directory :
    Effect.playlistGET "http://host/video.m3u8"
        ∈ (download_stream envW [] (some catalogOne)
            "http://host/streams/master.m3u8" "downloads/s1" none none).2.2
    ∧ urljoin (dirname "http://host/streams/master.m3u8") "video.m3u8"
        = "http://host/video.m3u8"
    ∧ urljoin "http://host/streams/master.m3u8" "video.m3u8"
        = "http://host/streams/video.m3u8"
    ∧ ("http://host/video.m3u8" : String) ≠ "http://host/streams/video.m3u8" := by
  decide

/-- Claim C5, evidence of the code bug: two sessions with distinct
working directories both write and later remove the same fixed
intermediate paths, because the intermediate file names of
_combine_streams are process-global literals independent of the
session. -/
theorem intermediate_paths_shared_between_sessions :
    Effect.fileWrite intermediate_video
        ∈ (combine_streams (fun _ => .ok ()) [] "downloads/s1/video_segments.txt"
            "downloads/s1/audio_segments.txt" "downloads/s1/out.mp4").2.1
    ∧ Effect.fileWrite intermediate_video
        ∈ (combine_streams (fun _ => .ok ()) [] "downloads/s2/video_segments.txt"
            "downloads/s2/audio_segments.txt" "downloads/s2/out.mp4").2.1
    ∧ Effect.fileWrite intermediate_audio
        ∈ (combine_streams (fun _ => .ok ()) [] "downloads/s1/video_segments.txt"
            "downloads/s1/audio_segments.txt" "downloads/s1/out.mp4").2.1
    ∧ Effect.fileWrite intermediate_audio
        ∈ (combine_streams (fun _ => .ok ()) [] "downloads/s2/video_segments.txt"
            "downloads/s2/audio_segments.txt" "downloads/s2/out.mp4").2.1
    ∧ ("downloads/s1/out.mp4" : String) ≠ "downloads/s2/out.mp4" := by
  decide

/-- Claim C6: when a non-falsy requested resolution matches no variant
label, download_stream fails with the no-stream ValueError carrying the
requested resolution, and when the variant is found but a non-falsy
requested language matches no AUDIO entry, it fails with the
no-audio-track ValueError; in both cases the filesystem is unchanged
and the effect trace is empty, so no segment fetch or sub-manifest load
is performed. -/
theorem requested_selection_absent_fails_before_any_fetch (env : Env) (fs : FS)
    (p : Playlist) (url dir : String) (r l : Option String) :
    (pyFalsy r = false →
      p.playlists.find? (fun pl => r == some (resolutionLabel pl)) = none →
      download_stream env fs (some p) url dir r l = (.error (.noStreamFound r), fs, []))
    ∧ (∀ spl : VariantPlaylist, pyFalsy l = false →
      p.playlists.find? (fun pl =>
        defaultFrom r (get_available_streams (some p)) == some (resolutionLabel pl)) = some spl →
      p.media.find? (fun m => m.type == "AUDIO" && l == some m.name) = none →
      download_stream env fs (some p) url dir r l
        = (.error (.noAudioTrackFound l), fs, [])) := by
  constructor
  · intro h1 h2
    exact download_stream_error env fs p url dir r l _ (selectStreams_noStream p r l h1 h2)
  · intro spl h1 h2 h3
    exact download_stream_error env fs p url dir r l _ (selectStreams_noAudio p r l spl h1 h2 h3)

/-- Claim C6, witness: on the one-variant one-track catalog, requesting
the absent resolution 999x999 fails with the no-stream error and no
effects, and requesting the absent language French fails with the
no-audio-track error and no effects. -/
theorem requested_selection_absent_fails_before_any_fetch_witness :
    download_stream envW [] (some catalogOne) "http://h/m.m3u8" "downloads/s"
        (some "999x999") none
      = (.error (.noStreamFound (some "999x999")), [], [])
    ∧ download_stream envW [] (some catalogOne) "http://h/m.m3u8" "downloads/s"
        none (some "French")
      = (.error (.noAudioTrackFound (some "French")), [], []) :=
  ⟨(requested_selection_absent_fails_before_any_fetch envW [] catalogOne "http://h/m.m3u8"
      "downloads/s" (some "999x999") none).1 (by decide) (by decide),
   (requested_selection_absent_fails_before_any_fetch envW [] catalogOne "http://h/m.m3u8"
      "downloads/s" none (some "French")).2
      { width := 640, height := 360, uri := "video.m3u8" } (by decide) (by decide) (by decide)⟩

/-- Claim C7, counterexample: on a catalog with zero variants,
download_stream does not fail with a dedicated empty-catalog error;
it falls through to the same no-stream ValueError that a not-found
requested resolution produces, here carrying the undefaulted None
resolution. -/
theorem empty_catalog_fails_with_no_stream_error :
    (download_stream envW [] (some catalogEmpty) "http://h/m.m3u8" "downloads/s" none none).1
      = .error (.noStreamFound none)
    ∧ (download_stream envW [] (some catalogOne) "http://h/m.m3u8" "downloads/s"
        (some "999x999") none).1
      = .error (.noStreamFound (some "999x999")) := by
  decide

/-- Claim C7, amended: on a catalog with zero variants download_stream
fails with the no-stream ValueError carrying None, and on a catalog
with variants but zero AUDIO entries it fails with the no-audio-track
ValueError carrying None; in both cases the filesystem is unchanged and
no effect is performed, so no file is written. -/
theorem empty_catalog_download_behavior (env : Env) (fs : FS) (p : Playlist)
    (url dir : String) :
    (p.playlists = [] →
      download_stream env fs (some p) url dir none none
        = (.error (.noStreamFound none), fs, []))
    ∧ (∀ c : VariantPlaylist, ∀ rest : List VariantPlaylist, p.playlists = c :: rest →
      p.media.filter (fun m => m.type == "AUDIO") = [] →
      download_stream env fs (some p) url dir none none
        = (.error (.noAudioTrackFound none), fs, [])) := by
  constructor
  · intro hp
    have hsel : selectStreams p none none = .error (.noStreamFound none) := by
      have hs : get_available_streams (some p) = [] := by
        simp [get_available_streams, hp]
      simp [selectStreams, hs, defaultFrom, pyFalsy, hp]
    exact download_stream_error env fs p url dir none none _ hsel
  · intro c rest hp hf
    have hsel : selectStreams p none none = .error (.noAudioTrackFound none) := by
      have hs := streams_cons p c rest hp
      have ha := audio_tracks_nil p hf
      simp only [selectStreams, hs, ha]
      simp only [defaultFrom, pyFalsy, ite_true]
      rw [hp, find_first_variant c rest, find_audio_none_lang p.media]
    exact download_stream_error env fs p url dir none none _ hsel

/-- Claim C7, witness for the amended claim: the empty catalog fails
with the no-stream error writing nothing, and the catalog with one
variant but no audio media fails with the no-audio-track error writing
nothing. -/
theorem empty_catalog_download_behavior_witness :
    download_stream envW [] (some catalogEmpty) "http://h/m.m3u8" "downloads/s" none none
      = (.error (.noStreamFound none), [], [])
    ∧ download_stream envW [] (some catalogNoAudio) "http://h/m.m3u8" "downloads/s" none none
      = (.error (.noAudioTrackFound none), [], []) :=
  ⟨(empty_catalog_download_behavior envW [] catalogEmpty "http://h/m.m3u8" "downloads/s").1
      (by decide),
   (empty_catalog_download_behavior envW [] catalogNoAudio "http://h/m.m3u8" "downloads/s").2
      { width := 640, height := 360, uri := "v.m3u8" } [] (by decide) (by decide)⟩

/-- Claim C8: with no requested resolution and language, on a catalog
whose variant list and filtered AUDIO list are both nonempty, the
selection of download_stream picks the first variant and the first
AUDIO entry in manifest order, defaulting the resolution to the first
label and the language to the first AUDIO name. -/
theorem omitted_selection_defaults_to_first (p : Playlist) (c : VariantPlaylist)
    (rest : List VariantPlaylist) (a : Media) (t : List Media)
    (hp : p.playlists = c :: rest)
    (hm : p.media.filter (fun m => m.type == "AUDIO") = a :: t) :
    selectStreams p none none = .ok (c, a, some (resolutionLabel c), some a.name) := by
  have hs := streams_cons p c rest hp
  have ha := audio_tracks_cons p a t hm
  simp only [selectStreams, hs, ha]
  simp only [defaultFrom, pyFalsy, ite_true]
  rw [hp, find_first_variant c rest, find_first_audio p.media a t hm]

/-- Claim C8, witness: on the two-variant two-track catalog of the
specification scenario, omitted parameters select the 640x360 variant
and the English track, the first of each in manifest order. -/
theorem omitted_selection_defaults_to_first_witness :
    selectStreams catalogTwo none none
      = .ok ({ width := 640, height := 360, uri := "v0.m3u8" },
             { type := "AUDIO", name := "English", uri := "a0.m3u8" },
             some "640x360", some "English") :=
  omitted_selection_defaults_to_first catalogTwo
    { width := 640, height := 360, uri := "v0.m3u8" }
    [{ width := 1280, height := 720, uri := "v1.m3u8" }]
    { type := "AUDIO", name := "English", uri := "a0.m3u8" }
    [{ type := "AUDIO", name := "Hindi", uri := "a1.m3u8" }]
    (by decide) (by decide)

/-- Claim C9: when the deterministic target path of a segment, the
session directory joined with the basename of the segment URI, already
exists on the modelled filesystem, _download_segment performs no GET
and no write and returns that path unchanged; the hypothesis only
requires existence, for any stored content, so the check is an
existence check with no content validation. -/
theorem existing_segment_skips_fetch (http : String → HttpResponse) (fs : FS)
    (url output_dir : String) (seg : Segment)
    (h : fsExists fs (segmentOutputPath output_dir seg) = true) :
    download_segment http fs url (segmentOutputPath output_dir seg)
      = (fs, [], segmentOutputPath output_dir seg) := by
  simp [download_segment, h]

/-- Claim C9, witness: with a partial junk content already stored at the
target path of seg0.ts, the fetch is skipped and the path returned. -/
theorem existing_segment_skips_fetch_witness :
    fsExists [("downloads/s1/seg0.ts", "PARTIAL")]
        (segmentOutputPath "downloads/s1" { uri := "seg0.ts" }) = true
    ∧ download_segment httpOk [("downloads/s1/seg0.ts", "PARTIAL")] "http://host/v/seg0.ts"
        (segmentOutputPath "downloads/s1" { uri := "seg0.ts" })
      = ([("downloads/s1/seg0.ts", "PARTIAL")], [],
         segmentOutputPath "downloads/s1" { uri := "seg0.ts" }) :=
  ⟨by decide,
   existing_segment_skips_fetch httpOk [("downloads/s1/seg0.ts", "PARTIAL")]
     "http://host/v/seg0.ts" "downloads/s1" { uri := "seg0.ts" } (by decide)⟩

/-- Claim C10: whatever the outcome of each of the three ffmpeg steps
and whatever the initial filesystem, after _combine_streams finishes
neither fixed intermediate path exists: the finally block removes both
on every exit path. -/
theorem intermediates_removed_on_all_paths (run : MuxStep → Except String Unit) (fs : FS)
    (video_segments audio_segments output_file : String) :
    fsExists (combine_streams run fs video_segments audio_segments output_file).1
        intermediate_video = false
    ∧ fsExists (combine_streams run fs video_segments audio_segments output_file).1
        intermediate_audio = false :=
  cleanup_clears (muxSteps run fs output_file).1

end M3U8
